import Mathlib

/-
Verification of the hex-grid core of bevy-hex-example.

The embedding covers src/bevy_hex/hex.rs (hex coordinates and directions)
and src/bevy_hex/geometry.rs (projection to Cartesian points and mesh
buffer assembly).

Modelling conventions:
  - Rust isize becomes Int.  None of the verified operations can overflow
    in a way the claims depend on, and the spec asks for the invariants at
    arbitrary magnitude, so unbounded integers are the faithful model.
  - Rust f32 becomes Rat with exact arithmetic.  Every float computation in
    the source is a composition of additions, subtractions and
    multiplications of decimal literals, so the rational model mirrors the
    source expressions term by term.
  - Rust u32 mesh indices become Nat; every emitted index is at most 22.
  - Functions that push onto a mutable Vec become functions from the buffer
    before the call to the buffer after the call (explicit state passing).
  - Rust integer division on isize truncates toward zero, which is Int.tdiv.
-/

/-- A coordinate on a hex grid (struct HexCoord in hex.rs): distances along
the axes of travel.  Intended invariant: q + r + s = 0. -/
structure HexCoord where
  q : Int
  r : Int
  s : Int
deriving DecidableEq

/-- The directions you can move on a hex grid (enum Direction in hex.rs). -/
inductive Direction where
  | None
  | North
  | South
  | Northeast
  | Southwest
  | Northwest
  | Southeast
deriving DecidableEq

/-- Direction.opposite from hex.rs. -/
def Direction.opposite : Direction → Direction
  | .None => .None
  | .North => .South
  | .South => .North
  | .Northeast => .Southwest
  | .Southwest => .Northeast
  | .Northwest => .Southeast
  | .Southeast => .Northwest

/-- HexCoord.new from hex.rs: s is derived as -q - r. -/
def HexCoord.new (q r : Int) : HexCoord :=
  ⟨q, r, -q - r⟩

/-- HexCoord.origin from hex.rs. -/
def HexCoord.origin : HexCoord :=
  ⟨0, 0, 0⟩

/-- HexCoord.north from hex.rs. -/
def HexCoord.north (c : HexCoord) : HexCoord :=
  HexCoord.new c.q (c.r - 1)

/-- HexCoord.south from hex.rs. -/
def HexCoord.south (c : HexCoord) : HexCoord :=
  HexCoord.new c.q (c.r + 1)

/-- HexCoord.northeast from hex.rs. -/
def HexCoord.northeast (c : HexCoord) : HexCoord :=
  HexCoord.new (c.q + 1) (c.r - 1)

/-- HexCoord.southwest from hex.rs. -/
def HexCoord.southwest (c : HexCoord) : HexCoord :=
  HexCoord.new (c.q - 1) (c.r + 1)

/-- HexCoord.northwest from hex.rs. -/
def HexCoord.northwest (c : HexCoord) : HexCoord :=
  HexCoord.new (c.q - 1) c.r

/-- HexCoord.southeast from hex.rs. -/
def HexCoord.southeast (c : HexCoord) : HexCoord :=
  HexCoord.new (c.q + 1) c.r

/-- HexCoord.neighbor from hex.rs: dispatch on the direction. -/
def HexCoord.neighbor (c : HexCoord) : Direction → HexCoord
  | .None => c
  | .North => c.north
  | .South => c.south
  | .Northeast => c.northeast
  | .Southwest => c.southwest
  | .Northwest => c.northwest
  | .Southeast => c.southeast

/-- The constant DIRECTIONS from hex.rs: all real directions, clockwise from
North. -/
def DIRECTIONS : List Direction :=
  [.North, .Northeast, .Southeast, .South, .Southwest, .Northwest]

/-- HexCoord.neighbors from hex.rs.  The Rust source returns a fresh lazy
iterator over DIRECTIONS; since the iterator is a pure function of the
coordinate and is rebuilt on every call, the faithful model is the eager
list of its yields. -/
def HexCoord.neighbors (c : HexCoord) : List HexCoord :=
  DIRECTIONS.map c.neighbor

/-- A 3-component vector, the model of the Rust [f32; 3] points, with y the
vertical axis. -/
structure Vec3 where
  x : ℚ
  y : ℚ
  z : ℚ
deriving DecidableEq

/-- The constant from geometry.rs: the source literal 0.866_025_4, an
approximation of sqrt 3 / 2 (the ratio of the inner to the outer radius
of a hexagon). -/
def HEX_INNER_RADIUS_RATIO : ℚ :=
  8660254 / 10000000

/-- The function center from geometry.rs: the center of the hexagon at c on
a grid of the given radius, shifted by offset.  The rhombus adjustment uses
the truncating division of Rust isize, Int.tdiv. -/
def center (radius : ℚ) (c : HexCoord) (offset : Vec3) : Vec3 :=
  let qf : ℚ := c.q
  let rf : ℚ := c.r
  let outer := radius
  let inner := radius * HEX_INNER_RADIUS_RATIO
  let start := qf
  let row_adjustment := (1 / 2 : ℚ) * rf
  let rhombus_adjustment : ℚ := -(Int.tdiv c.r 2 : Int)
  let x := (start + row_adjustment + rhombus_adjustment) * inner * 2
  let z := rf * outer * (3 / 2)
  ⟨x + offset.x, 0 + offset.y, z + offset.z⟩

/-- east_corner from geometry.rs. -/
def east_corner (radius : ℚ) (c : HexCoord) (offset : Vec3) : Vec3 :=
  let ctr := center radius c offset
  ⟨ctr.x + 0, ctr.y + 0, ctr.z + radius⟩

/-- west_corner from geometry.rs. -/
def west_corner (radius : ℚ) (c : HexCoord) (offset : Vec3) : Vec3 :=
  let ctr := center radius c offset
  ⟨ctr.x + 0, ctr.y + 0, ctr.z - radius⟩

/-- north_east_corner from geometry.rs. -/
def north_east_corner (radius : ℚ) (c : HexCoord) (offset : Vec3) : Vec3 :=
  let ctr := center radius c offset
  let inner := radius * HEX_INNER_RADIUS_RATIO
  ⟨ctr.x + inner, ctr.y + 0, ctr.z + (1 / 2) * radius⟩

/-- north_west_corner from geometry.rs. -/
def north_west_corner (radius : ℚ) (c : HexCoord) (offset : Vec3) : Vec3 :=
  let ctr := center radius c offset
  let inner := radius * HEX_INNER_RADIUS_RATIO
  ⟨ctr.x + inner, ctr.y + 0, ctr.z - (1 / 2) * radius⟩

/-- south_east_corner from geometry.rs. -/
def south_east_corner (radius : ℚ) (c : HexCoord) (offset : Vec3) : Vec3 :=
  let ctr := center radius c offset
  let inner := radius * HEX_INNER_RADIUS_RATIO
  ⟨ctr.x - inner, ctr.y + 0, ctr.z + (1 / 2) * radius⟩

/-- south_west_corner from geometry.rs. -/
def south_west_corner (radius : ℚ) (c : HexCoord) (offset : Vec3) : Vec3 :=
  let ctr := center radius c offset
  let inner := radius * HEX_INNER_RADIUS_RATIO
  ⟨ctr.x - inner, ctr.y + 0, ctr.z - (1 / 2) * radius⟩

/-- flat_hexagon_ring from geometry.rs: append the 6 corners counter
clockwise from the east corner, with the east corner repeated at the end. -/
def flat_hexagon_ring (pts : List Vec3) (radius : ℚ) (c : HexCoord)
    (offset : Vec3) : List Vec3 :=
  pts ++
    [east_corner radius c offset,
     north_east_corner radius c offset,
     north_west_corner radius c offset,
     west_corner radius c offset,
     south_west_corner radius c offset,
     south_east_corner radius c offset,
     east_corner radius c offset]

/-- flat_hexagon_points from geometry.rs: push the center, then the ring. -/
def flat_hexagon_points (pts : List Vec3) (radius : ℚ) (c : HexCoord) :
    List Vec3 :=
  flat_hexagon_ring (pts ++ [center radius c ⟨0, 0, 0⟩]) radius c ⟨0, 0, 0⟩

/-- flat_hexagon_normals from geometry.rs: 8 copies of the up vector. -/
def flat_hexagon_normals (normals : List Vec3) : List Vec3 :=
  normals ++ List.replicate 8 ⟨0, 1, 0⟩

/-- flat_hexagon_indices from geometry.rs: for i in 0..=6 push the triangle
0, i + 1, i + 2. -/
def flat_hexagon_indices (idx : List Nat) : List Nat :=
  (List.range 7).foldl (fun acc i => acc ++ [0, i + 1, i + 2]) idx

/-- bevel_hexagon_points from geometry.rs: a shrunk top face, a full ring
lowered by the shrink amount, and a skirt ring at depth 10. -/
def bevel_hexagon_points (points : List Vec3) (radius factor : ℚ)
    (c : HexCoord) : List Vec3 :=
  let inner_radius := radius * factor
  let points := flat_hexagon_points points inner_radius c
  let offset : Vec3 := ⟨0, inner_radius - radius, 0⟩
  let points := flat_hexagon_ring points radius c offset
  let offset2 : Vec3 := ⟨0, -10, 0⟩
  flat_hexagon_ring points radius c offset2

/-- bevel_hexagon_normals from geometry.rs. -/
def bevel_hexagon_normals (normals : List Vec3) : List Vec3 :=
  let normals := flat_hexagon_normals normals
  let c := HexCoord.new 0 0
  let offset : Vec3 := ⟨0, 707 / 1000, 0⟩
  let normals := flat_hexagon_ring normals (707 / 1000) c offset
  let offset2 : Vec3 := ⟨0, 0, 0⟩
  flat_hexagon_ring normals 1 c offset2

/-- quad_indices from geometry.rs: two triangles covering a quad. -/
def quad_indices (idx : List Nat)
    (top_left top_right bottom_left bottom_right : Nat) : List Nat :=
  idx ++ [top_left, bottom_left, bottom_right] ++
    [top_left, bottom_right, top_right]

/-- bevel_hexagon_indices from geometry.rs: top fan, slope band, skirt
band. -/
def bevel_hexagon_indices (idx : List Nat) : List Nat :=
  let idx := flat_hexagon_indices idx
  let idx := (List.range 7).foldl
    (fun acc i => quad_indices acc (i + 1) (i + 2) (i + 8) (i + 9)) idx
  (List.range 7).foldl
    (fun acc i => quad_indices acc (i + 8) (i + 9) (i + 15) (i + 16)) idx

/-- The x, y, z formulas for center written exactly as the specification
states them, to be compared with the definition taken from the source:
x = (q + 0.5 r - trunc (r / 2)) * inner * 2 + offset.x with
inner = radius * HEX_INNER_RADIUS_RATIO, y = offset.y, and
z = r * radius * 1.5 + offset.z, where trunc truncates toward zero. -/
def center_spec (radius : ℚ) (c : HexCoord) (offset : Vec3) : Vec3 :=
  let inner := radius * HEX_INNER_RADIUS_RATIO
  ⟨((c.q : ℚ) + (1 / 2) * (c.r : ℚ) - (Int.tdiv c.r 2 : Int)) * inner * 2
      + offset.x,
   offset.y,
   (c.r : ℚ) * radius * (3 / 2) + offset.z⟩

/-- Squared Euclidean distance between two points.  Over the rationals the
Euclidean distance itself is not expressible, but for radius > 0 the
distance equals the radius exactly when the squared distance equals the
squared radius, so the claims about exact distances are settled through
this function. -/
def dist2 (a b : Vec3) : ℚ :=
  (a.x - b.x) ^ 2 + (a.y - b.y) ^ 2 + (a.z - b.z) ^ 2

/-- C1: HexCoord.new always yields q + r + s = 0, and every directional
operation (north, south, northeast, southwest, northwest, southeast, and
neighbor in any Direction) maps a coordinate with q + r + s = 0 to a
coordinate with q + r + s = 0, for unbounded integer q, r. -/
theorem zero_sum_invariant_preserved :
    (∀ q r : Int,
      (HexCoord.new q r).q + (HexCoord.new q r).r + (HexCoord.new q r).s
        = 0) ∧
    ∀ c : HexCoord, c.q + c.r + c.s = 0 →
      (c.north.q + c.north.r + c.north.s = 0) ∧
      (c.south.q + c.south.r + c.south.s = 0) ∧
      (c.northeast.q + c.northeast.r + c.northeast.s = 0) ∧
      (c.southwest.q + c.southwest.r + c.southwest.s = 0) ∧
      (c.northwest.q + c.northwest.r + c.northwest.s = 0) ∧
      (c.southeast.q + c.southeast.r + c.southeast.s = 0) ∧
      ∀ d : Direction,
        (c.neighbor d).q + (c.neighbor d).r + (c.neighbor d).s = 0 := by
  constructor
  · intro q r
    simp only [HexCoord.new]
    omega
  · intro c h
    refine ⟨?_, ?_, ?_, ?_, ?_, ?_, ?_⟩
    · simp only [HexCoord.north, HexCoord.new]; omega
    · simp only [HexCoord.south, HexCoord.new]; omega
    · simp only [HexCoord.northeast, HexCoord.new]; omega
    · simp only [HexCoord.southwest, HexCoord.new]; omega
    · simp only [HexCoord.northwest, HexCoord.new]; omega
    · simp only [HexCoord.southeast, HexCoord.new]; omega
    · intro d
      cases d <;>
        simp only [HexCoord.neighbor, HexCoord.north, HexCoord.south,
          HexCoord.northeast, HexCoord.southwest, HexCoord.northwest,
          HexCoord.southeast, HexCoord.new] <;>
        omega

/-- Witness for C1 at the concrete coordinate new 3 (-7). -/
theorem zero_sum_invariant_preserved_witness :
    (HexCoord.new 3 (-7)).q + (HexCoord.new 3 (-7)).r
        + (HexCoord.new 3 (-7)).s = 0 ∧
    (HexCoord.new 3 (-7)).north.q + (HexCoord.new 3 (-7)).north.r
        + (HexCoord.new 3 (-7)).north.s = 0 :=
  ⟨zero_sum_invariant_preserved.1 3 (-7),
   (zero_sum_invariant_preserved.2 (HexCoord.new 3 (-7)) (by decide)).1⟩

/-- C2: for every coordinate satisfying the zero-sum invariant and every
direction other than None, stepping to the neighbor and then stepping in
the opposite direction returns the original coordinate. -/
theorem neighbor_then_opposite_returns (c : HexCoord) (d : Direction)
    (hc : c.q + c.r + c.s = 0) (hd : d ≠ Direction.None) :
    (c.neighbor d).neighbor d.opposite = c := by
  obtain ⟨q, r, s⟩ := c
  simp only at hc
  cases d <;>
    simp [HexCoord.neighbor, Direction.opposite, HexCoord.north,
      HexCoord.south, HexCoord.northeast, HexCoord.southwest,
      HexCoord.northwest, HexCoord.southeast, HexCoord.new,
      HexCoord.mk.injEq] <;>
    omega

/-- Witness for C2 at the coordinate new 2 3 and direction Northeast. -/
theorem neighbor_then_opposite_returns_witness :
    ((HexCoord.new 2 3).neighbor Direction.Northeast).neighbor
      Direction.Northeast.opposite = HexCoord.new 2 3 :=
  neighbor_then_opposite_returns (HexCoord.new 2 3) Direction.Northeast
    (by decide) (by decide)

/-- C3: flat_hexagon_indices appends exactly 21 indices, the 7 triangles
(0, i + 1, i + 2) for i from 0 to 6; its largest index value is 8, while
flat_hexagon_points appends only 8 points to an empty buffer (valid indices
0 through 7), so the fan over-indexes a standalone flat-hexagon buffer. -/
theorem flat_fan_over_indexes_standalone_buffer :
    flat_hexagon_indices [] =
      [0, 1, 2, 0, 2, 3, 0, 3, 4, 0, 4, 5, 0, 5, 6, 0, 6, 7, 0, 7, 8] ∧
    (flat_hexagon_indices []).length = 21 ∧
    (∀ j ∈ flat_hexagon_indices [], j ≤ 8) ∧
    8 ∈ flat_hexagon_indices [] ∧
    ∀ (radius : ℚ) (c : HexCoord),
      (flat_hexagon_points [] radius c).length = 8 := by
  refine ⟨by decide, by decide, by decide, by decide, fun radius c => ?_⟩
  simp [flat_hexagon_points, flat_hexagon_ring]

/-- C4: the skirt band of bevel_hexagon_indices ends with the quad over
corners 14, 15, 21, 22, so the emitted buffer contains the index value 22,
while bevel_hexagon_points appends exactly 22 points (valid indices 0
through 21): the beveled mesh references one position past the end of its
own point buffer for every radius, factor and coordinate. -/
theorem bevel_indices_reference_past_point_buffer :
    (bevel_hexagon_indices []).drop 99 = quad_indices [] 14 15 21 22 ∧
    22 ∈ bevel_hexagon_indices [] ∧
    ∀ (radius factor : ℚ) (c : HexCoord),
      (bevel_hexagon_points [] radius factor c).length = 22 ∧
      ∃ j ∈ bevel_hexagon_indices [],
        (bevel_hexagon_points [] radius factor c).length ≤ j := by
  refine ⟨by decide, by decide, fun radius factor c => ?_⟩
  have hlen : (bevel_hexagon_points [] radius factor c).length = 22 := by
    simp [bevel_hexagon_points, flat_hexagon_points, flat_hexagon_ring]
  exact ⟨hlen, 22, by decide, le_of_eq hlen⟩

/-- C5: center computes exactly the specification formula (with the
truncating division Int.tdiv of r by 2), and the center of the origin with
zero offset is the zero point for every radius. -/
theorem center_matches_spec_formula :
    (∀ (radius : ℚ) (c : HexCoord) (offset : Vec3),
      center radius c offset = center_spec radius c offset) ∧
    ∀ radius : ℚ, center radius HexCoord.origin ⟨0, 0, 0⟩ = ⟨0, 0, 0⟩ := by
  constructor
  · intro radius c offset
    simp only [center, center_spec, Vec3.mk.injEq]
    refine ⟨by ring, by rw [zero_add], trivial⟩
  · intro radius
    have h0 : Int.tdiv 0 2 = 0 := rfl
    simp only [center, HexCoord.origin, h0, Vec3.mk.injEq]
    norm_num

/-- C6: the neighbors of a coordinate are exactly its neighbor in each of
North, Northeast, Southeast, South, Southwest, Northwest, in that order;
there are always 6 of them, and those of the origin are the six listed
coordinates.  The model is a pure function of the coordinate, which is
exactly why the Rust iterator, rebuilt from DIRECTIONS on every call,
reproduces the identical sequence on every re-invocation. -/
theorem neighbors_fixed_order_and_origin_values :
    (∀ c : HexCoord, c.neighbors =
      [c.neighbor .North, c.neighbor .Northeast, c.neighbor .Southeast,
       c.neighbor .South, c.neighbor .Southwest, c.neighbor .Northwest]) ∧
    (∀ c : HexCoord, c.neighbors.length = 6) ∧
    HexCoord.origin.neighbors =
      [⟨0, -1, 1⟩, ⟨1, -1, 0⟩, ⟨1, 0, -1⟩, ⟨0, 1, -1⟩, ⟨-1, 1, 0⟩,
       ⟨-1, 0, 1⟩] := by
  refine ⟨fun c => rfl, fun c => rfl, by decide⟩

/-- C7: for every radius, factor and coordinate, bevel_hexagon_points
appends exactly the 8 top-face points at radius * factor, then the
full-radius ring lowered by radius * factor - radius, then the full-radius
skirt ring at depth 10, for 22 points in all; bevel_hexagon_normals appends
exactly 22 vectors and bevel_hexagon_indices exactly 105 indices, which is
35 triangles. -/
theorem bevel_buffer_sizes :
    ∀ (radius factor : ℚ) (c : HexCoord),
      bevel_hexagon_points [] radius factor c =
        flat_hexagon_points [] (radius * factor) c ++
          flat_hexagon_ring [] radius c ⟨0, radius * factor - radius, 0⟩ ++
          flat_hexagon_ring [] radius c ⟨0, -10, 0⟩ ∧
      (bevel_hexagon_points [] radius factor c).length = 22 ∧
      (bevel_hexagon_normals []).length = 22 ∧
      (bevel_hexagon_indices []).length = 105 ∧
      (bevel_hexagon_indices []).length = 35 * 3 := by
  intro radius factor c
  refine ⟨?_, ?_, by decide, by decide, by decide⟩
  · simp [bevel_hexagon_points, flat_hexagon_points, flat_hexagon_ring]
  · simp [bevel_hexagon_points, flat_hexagon_points, flat_hexagon_ring]

/-- C10: quad_indices appends exactly the triangle top_left, bottom_left,
bottom_right followed by the triangle top_left, bottom_right, top_right,
and on 0 1 2 3 it appends 0, 2, 3, 0, 3, 1. -/
theorem quad_indices_emits_two_triangles :
    (∀ (idx : List Nat) (tl tr bl br : Nat),
      quad_indices idx tl tr bl br = idx ++ [tl, bl, br, tl, br, tr]) ∧
    quad_indices [] 0 1 2 3 = [0, 2, 3, 0, 3, 1] := by
  refine ⟨fun idx tl tr bl br => ?_, by decide⟩
  simp [quad_indices]

/-- C8 counterexample: at radius 1 (which is positive) and the origin, the
squared distance of the north-east corner from the center is strictly less
than the squared radius, so the Euclidean distance is not exactly the
radius: the source constant 0.8660254 is slightly below sqrt 3 / 2. -/
theorem corner_distance_not_exact_counterexample :
    (0 : ℚ) < 1 ∧
    dist2 (north_east_corner 1 HexCoord.origin ⟨0, 0, 0⟩)
        (center 1 HexCoord.origin ⟨0, 0, 0⟩) ≠ 1 ^ 2 ∧
    dist2 (north_east_corner 1 HexCoord.origin ⟨0, 0, 0⟩)
        (center 1 HexCoord.origin ⟨0, 0, 0⟩) < 1 ^ 2 := by
  have h0 : Int.tdiv 0 2 = 0 := rfl
  refine ⟨by norm_num, ?_, ?_⟩ <;>
  · simp only [dist2, north_east_corner, center, HexCoord.origin, h0,
      HEX_INNER_RADIUS_RATIO]
    norm_num

/-- C8 amended: for every radius > 0 and coordinate, the east and west
corners are at squared distance exactly radius ^ 2 from the center (hence
at Euclidean distance exactly the radius), while the four diagonal corners
are at squared distance radius ^ 2 * ( HEX_INNER_RADIUS_RATIO ^ 2 + 1 / 4),
which differs from radius ^ 2 because the constant is not exactly
sqrt 3 / 2: their distance is close to, but not exactly, the radius. -/
theorem corner_squared_distances (radius : ℚ) (c : HexCoord)
    (h : 0 < radius) :
    dist2 (east_corner radius c ⟨0, 0, 0⟩) (center radius c ⟨0, 0, 0⟩) =
      radius ^ 2 ∧
    dist2 (west_corner radius c ⟨0, 0, 0⟩) (center radius c ⟨0, 0, 0⟩) =
      radius ^ 2 ∧
    dist2 (north_east_corner radius c ⟨0, 0, 0⟩)
        (center radius c ⟨0, 0, 0⟩) =
      radius ^ 2 * ( HEX_INNER_RADIUS_RATIO ^ 2 + 1 / 4) ∧
    dist2 (north_west_corner radius c ⟨0, 0, 0⟩)
        (center radius c ⟨0, 0, 0⟩) =
      radius ^ 2 * ( HEX_INNER_RADIUS_RATIO ^ 2 + 1 / 4) ∧
    dist2 (south_east_corner radius c ⟨0, 0, 0⟩)
        (center radius c ⟨0, 0, 0⟩) =
      radius ^ 2 * ( HEX_INNER_RADIUS_RATIO ^ 2 + 1 / 4) ∧
    dist2 (south_west_corner radius c ⟨0, 0, 0⟩)
        (center radius c ⟨0, 0, 0⟩) =
      radius ^ 2 * ( HEX_INNER_RADIUS_RATIO ^ 2 + 1 / 4) ∧
    radius ^ 2 * ( HEX_INNER_RADIUS_RATIO ^ 2 + 1 / 4) ≠ radius ^ 2 := by
  refine ⟨?_, ?_, ?_, ?_, ?_, ?_, ?_⟩
  · simp only [dist2, east_corner, center]; ring
  · simp only [dist2, west_corner, center]; ring
  · simp only [dist2, north_east_corner, center]; ring
  · simp only [dist2, north_west_corner, center]; ring
  · simp only [dist2, south_east_corner, center]; ring
  · simp only [dist2, south_west_corner, center]; ring
  · intro heq
    have hk : ( HEX_INNER_RADIUS_RATIO : ℚ) ^ 2 + 1 / 4 = 1 :=
      mul_left_cancel₀ (pow_ne_zero 2 (ne_of_gt h))
        (heq.trans (mul_one _).symm)
    norm_num [ HEX_INNER_RADIUS_RATIO] at hk

/-- Witness for the amended C8 at radius 1 and the origin. -/
theorem corner_squared_distances_witness :
    (0 : ℚ) < 1 ∧
    dist2 (east_corner 1 HexCoord.origin ⟨0, 0, 0⟩)
        (center 1 HexCoord.origin ⟨0, 0, 0⟩) = 1 ^ 2 :=
  ⟨by norm_num, (corner_squared_distances 1 HexCoord.origin (by norm_num)).1⟩

/-- C9: with radius 1 and factor 9 / 10 at the coordinate new 0 0, the
beveled point buffer has its 8 top-face points at height 0, its 7
slope-ring points at height 9 / 10 - 1 = -1 / 10, and its 7 skirt-ring
points at height -10. -/
theorem bevel_points_heights_at_unit_radius :
    (bevel_hexagon_points [] 1 (9 / 10) (HexCoord.new 0 0)).map Vec3.y =
      List.replicate 8 0 ++ List.replicate 7 (-(1 / 10)) ++
        List.replicate 7 (-10) := by
  have h0 : Int.tdiv 0 2 = 0 := rfl
  simp [bevel_hexagon_points, flat_hexagon_points, flat_hexagon_ring,
    east_corner, west_corner, north_east_corner, north_west_corner,
    south_east_corner, south_west_corner, center, HexCoord.new, h0,
    HEX_INNER_RADIUS_RATIO, List.replicate]
  norm_num
